import Mathlib

/-!
Shallow embedding of the orbit-camera core of the render-engine-wgpu
repository (src/the-camera/src/camera/orbit_camera.rs,
src/the-camera/src/camera/camera.rs,
src/the-camera/src/camera/camera_controller.rs).

Modelling conventions:
 -  f32 values are idealised as exact rationals.  Every finite f32 is a
    rational number, and none of the verified claims depends on rounding
    of the basic arithmetic operations.  The f32 constants used by the
    code (EPSILON, MAX, MIN and consts::PI) are embedded with their
    exact rational values.
 -  The transcendental library functions (sin, cos, tan, sqrt, log10)
    are abstracted as an arbitrary record of functions on the scalars
    (structure FloatOps); the theorems quantify over all such records,
    so nothing is assumed about the numeric behaviour of libm.
 -  cgmath matrices are column major; cgmath Matrix4::new receives the
    sixteen entries column by column.  The embedding stores a Matrix4
    exactly as cgmath does: four column vectors of four components.
 -  The one place where real IEEE-754 special values are observable to
    the claims, the unguarded division in resize_projection, is
    additionally modelled over an explicit extended-float type F32 with
    infinities and NaN (see resize_projection_f32_aspect below).
-/

namespace RenderCam

/-- Abstract interface to the f32 transcendental functions used by the
camera code.  A record instead of fixed functions: every theorem below
holds for an arbitrary implementation, which over-approximates the real
libm behaviour. -/
structure FloatOps where
  sin : ℚ → ℚ
  cos : ℚ → ℚ
  tan : ℚ → ℚ
  sqrt : ℚ → ℚ
  log10 : ℚ → ℚ

/-- Exact value of f32::EPSILON, that is 2 to the power -23. -/
def f32EPSILON : ℚ := 1 / 8388608

/-- Exact value of f32::MAX, that is (2 - 2 to the -23) times 2 to the 127. -/
def f32MAX : ℚ := 340282346638528859811704183484516925440

/-- Exact value of f32::MIN, the negation of f32::MAX. -/
def f32MIN : ℚ := -f32MAX

/-- Exact rational value of std::f32::consts::PI (the f32 nearest to pi). -/
def PI32 : ℚ := 13176795 / 4194304

/-- Rust f32::clamp(lo, hi): lo if self < lo, hi if self > hi, else self.
Rust panics when lo > hi; the theorems that need it carry a
well-formed-bounds hypothesis instead. -/
def rustClamp (x lo hi : ℚ) : ℚ :=
  if x < lo then lo else if x > hi then hi else x

/-- cgmath Vector3 with rational components. -/
@[ext]
structure Vec3 where
  x : ℚ
  y : ℚ
  z : ℚ
deriving DecidableEq

namespace Vec3

def add (a b : Vec3) : Vec3 := ⟨a.x + b.x, a.y + b.y, a.z + b.z⟩

def sub (a b : Vec3) : Vec3 := ⟨a.x - b.x, a.y - b.y, a.z - b.z⟩

def smul (k : ℚ) (a : Vec3) : Vec3 := ⟨k * a.x, k * a.y, k * a.z⟩

instance : Add Vec3 := ⟨Vec3.add⟩

instance : Sub Vec3 := ⟨Vec3.sub⟩

/-- cgmath Vector3::dot. -/
def dot (a b : Vec3) : ℚ := a.x * b.x + a.y * b.y + a.z * b.z

/-- cgmath Vector3::cross. -/
def cross (a b : Vec3) : Vec3 :=
  ⟨a.y * b.z - a.z * b.y, a.z * b.x - a.x * b.z, a.x * b.y - a.y * b.x⟩

/-- cgmath InnerSpace::magnitude, sqrt of the dot product with itself. -/
def magnitude (ops : FloatOps) (a : Vec3) : ℚ := ops.sqrt (dot a a)

/-- cgmath InnerSpace::normalize, self times the reciprocal magnitude. -/
def normalize (ops : FloatOps) (a : Vec3) : Vec3 :=
  smul (1 / magnitude ops a) a

end Vec3

/-- cgmath Vector4 with rational components. -/
@[ext]
structure Vec4 where
  x : ℚ
  y : ℚ
  z : ℚ
  w : ℚ
deriving DecidableEq

namespace Vec4

def add (a b : Vec4) : Vec4 := ⟨a.x + b.x, a.y + b.y, a.z + b.z, a.w + b.w⟩

def smul (k : ℚ) (a : Vec4) : Vec4 := ⟨k * a.x, k * a.y, k * a.z, k * a.w⟩

instance : Add Vec4 := ⟨Vec4.add⟩

def comp (a : Vec4) : Fin 4 → ℚ
  | 0 => a.x
  | 1 => a.y
  | 2 => a.z
  | 3 => a.w

end Vec4

/-- cgmath Matrix4: four column vectors, exactly the source layout. -/
@[ext]
structure Mat4 where
  x : Vec4
  y : Vec4
  z : Vec4
  w : Vec4
deriving DecidableEq

namespace Mat4

/-- cgmath Matrix4::new, which receives the sixteen entries column by
column: first the four rows of column 0, then column 1, and so on. -/
def new (c0r0 c0r1 c0r2 c0r3 c1r0 c1r1 c1r2 c1r3
    c2r0 c2r1 c2r2 c2r3 c3r0 c3r1 c3r2 c3r3 : ℚ) : Mat4 :=
  ⟨⟨c0r0, c0r1, c0r2, c0r3⟩, ⟨c1r0, c1r1, c1r2, c1r3⟩,
   ⟨c2r0, c2r1, c2r2, c2r3⟩, ⟨c3r0, c3r1, c3r2, c3r3⟩⟩

def col (m : Mat4) : Fin 4 → Vec4
  | 0 => m.x
  | 1 => m.y
  | 2 => m.z
  | 3 => m.w

/-- Entry of the matrix at (row r, column c), 0-indexed: component r of
column c, matching cgmath indexing m[c][r]. -/
def entry (m : Mat4) (r c : Fin 4) : ℚ := (m.col c).comp r

/-- cgmath matrix-times-vector: the columns scaled by the components of
the vector and summed. -/
def mulVec (m : Mat4) (v : Vec4) : Vec4 :=
  Vec4.smul v.x m.x + Vec4.smul v.y m.y + Vec4.smul v.z m.z + Vec4.smul v.w m.w

/-- cgmath Matrix4 multiplication: column j of the product is the left
matrix applied to column j of the right matrix. -/
def mul (a b : Mat4) : Mat4 :=
  ⟨mulVec a b.x, mulVec a b.y, mulVec a b.z, mulVec a b.w⟩

instance : Mul Mat4 := ⟨Mat4.mul⟩

/-- cgmath SquareMatrix::identity for Matrix4. -/
def identity : Mat4 :=
  new 1 0 0 0 0 1 0 0 0 0 1 0 0 0 0 1

def transpose (m : Mat4) : Mat4 :=
  ⟨⟨m.x.x, m.y.x, m.z.x, m.w.x⟩, ⟨m.x.y, m.y.y, m.z.y, m.w.y⟩,
   ⟨m.x.z, m.y.z, m.z.z, m.w.z⟩, ⟨m.x.w, m.y.w, m.z.w, m.w.w⟩⟩

end Mat4

/-- The constant from src/the-camera/src/camera/orbit_camera.rs lines
8-14, with the sixteen literals passed to cgmath Matrix4::new in the
exact order they appear in the source (column-major order). -/
def OPENGL_TO_WGPU_MATRIX : Mat4 :=
  Mat4.new
    1 0 0 0
    0 1 0 0
    0 0 (1/2) (1/2)
    0 0 0 1

/-- The correction matrix the specification describes: identity except
that entry (row 2, column 2) is one half and entry (row 2, column 3) is
one half.  Written for comparison with the constant actually in the
source; it is the transpose of OPENGL_TO_WGPU_MATRIX. -/
def SPEC_CORRECTION_MATRIX : Mat4 :=
  Mat4.new
    1 0 0 0
    0 1 0 0
    0 0 (1/2) 0
    0 0 (1/2) 1

/-- cgmath perspective(fovy, aspect, near, far): the right-handed
perspective matrix, with f the cotangent of half the field of view
(cgmath Rad::cot is the reciprocal of tan). -/
def perspective (ops : FloatOps) (fovy aspect near far : ℚ) : Mat4 :=
  let f : ℚ := 1 / ops.tan (fovy / 2)
  Mat4.new
    (f / aspect) 0 0 0
    0 f 0 0
    0 0 ((far + near) / (near - far)) (-1)
    0 0 ((2 * far * near) / (near - far)) 0

/-- cgmath Matrix4::look_at_rh(eye, center, up), which is
look_to_rh(eye, center - eye, up). -/
def look_at_rh (ops : FloatOps) (eye center up : Vec3) : Mat4 :=
  let f := Vec3.normalize ops (center - eye)
  let s := Vec3.normalize ops (Vec3.cross f up)
  let u := Vec3.cross s f
  Mat4.new
    s.x u.x (-f.x) 0
    s.y u.y (-f.y) 0
    s.z u.z (-f.z) 0
    (-(Vec3.dot eye s)) (-(Vec3.dot eye u)) (Vec3.dot eye f) 1

/-- camera.rs convert_matrix4_to_array: result[i][j] = matrix4[i][j];
both sides are column-major four-by-four blocks, so the copy is the
entrywise identity on the Mat4 representation. -/
def convert_matrix4_to_array (matrix4 : Mat4) : Mat4 := matrix4

/-- camera.rs CameraUniform: homogeneous eye position and the
view-projection matrix, as uploaded to the GPU. -/
structure CameraUniform where
  view_position : Vec4
  view_proj : Mat4
deriving DecidableEq

/-- camera.rs impl Default for CameraUniform. -/
def CameraUniform.default : CameraUniform :=
  ⟨⟨0, 0, 0, 0⟩, convert_matrix4_to_array Mat4.identity⟩

/-- orbit_camera.rs OrbitCameraBounds. -/
structure OrbitCameraBounds where
  min_distance : Option ℚ
  max_distance : Option ℚ
  min_pitch : ℚ
  max_pitch : ℚ
  min_yaw : Option ℚ
  max_yaw : Option ℚ
deriving DecidableEq

/-- orbit_camera.rs impl Default for OrbitCameraBounds. -/
def OrbitCameraBounds.default : OrbitCameraBounds :=
  { min_distance := none
    max_distance := some 16
    min_pitch := -(PI32 / 2) + f32EPSILON
    max_pitch := PI32 / 2 - f32EPSILON
    min_yaw := none
    max_yaw := none }

/-- orbit_camera.rs OrbitCamera. -/
structure OrbitCamera where
  distance : ℚ
  pitch : ℚ
  yaw : ℚ
  eye : Vec3
  target : Vec3
  up : Vec3
  bounds : OrbitCameraBounds
  aspect : ℚ
  fovy : ℚ
  znear : ℚ
  zfar : ℚ
  uniform : CameraUniform
deriving DecidableEq

/-- orbit_camera.rs calculate_cartesian_eye_position. -/
def calculate_cartesian_eye_position (ops : FloatOps)
    (pitch yaw distance : ℚ) (target : Vec3) : Vec3 :=
  Vec3.mk
    (distance * ops.sin yaw * ops.cos pitch)
    (distance * ops.sin pitch)
    (distance * ops.cos yaw * ops.cos pitch)
  + target

/-- orbit_camera.rs OrbitCamera::update: recompute eye from the
spherical parameters. -/
def update (ops : FloatOps) (c : OrbitCamera) : OrbitCamera :=
  { c with
    eye := calculate_cartesian_eye_position ops c.pitch c.yaw c.distance c.target }

/-- orbit_camera.rs OrbitCamera::new: the raw distance, pitch and yaw
arguments are stored unclamped, eye starts at zero, then update runs. -/
def OrbitCamera.new (ops : FloatOps)
    (distance pitch yaw : ℚ) (target : Vec3) (aspect : ℚ) : OrbitCamera :=
  update ops
    { distance := distance
      pitch := pitch
      yaw := yaw
      eye := ⟨0, 0, 0⟩
      target := target
      up := ⟨0, 1, 0⟩
      bounds := OrbitCameraBounds.default
      aspect := aspect
      fovy := PI32 / 4
      znear := 1 / 10
      zfar := 1000
      uniform := CameraUniform.default }

/-- orbit_camera.rs OrbitCamera::set_distance: clamp to
[min_distance or f32::EPSILON, max_distance or f32::MAX], store,
update. -/
def set_distance (ops : FloatOps) (distance : ℚ) (c : OrbitCamera) : OrbitCamera :=
  update ops
    { c with
      distance :=
        rustClamp distance
          (c.bounds.min_distance.getD f32EPSILON)
          (c.bounds.max_distance.getD f32MAX) }

/-- orbit_camera.rs OrbitCamera::add_distance: scale delta by the
base-10 logarithm of the current distance, then set_distance.  The
println side effect of the source is irrelevant to the state. -/
def add_distance (ops : FloatOps) (delta : ℚ) (c : OrbitCamera) : OrbitCamera :=
  set_distance ops (c.distance + ops.log10 c.distance * delta) c

/-- orbit_camera.rs OrbitCamera::set_pitch. -/
def set_pitch (ops : FloatOps) (pitch : ℚ) (c : OrbitCamera) : OrbitCamera :=
  update ops
    { c with pitch := rustClamp pitch c.bounds.min_pitch c.bounds.max_pitch }

/-- orbit_camera.rs OrbitCamera::add_pitch. -/
def add_pitch (ops : FloatOps) (delta : ℚ) (c : OrbitCamera) : OrbitCamera :=
  set_pitch ops (c.pitch + delta) c

/-- orbit_camera.rs OrbitCamera::set_yaw: lower clamp against f32::MAX
only when min_yaw is set, upper clamp against f32::MIN only when
max_yaw is set. -/
def set_yaw (ops : FloatOps) (yaw : ℚ) (c : OrbitCamera) : OrbitCamera :=
  let b1 : ℚ :=
    match c.bounds.min_yaw with
    | some m => rustClamp yaw m f32MAX
    | none => yaw
  let b2 : ℚ :=
    match c.bounds.max_yaw with
    | some m => rustClamp b1 f32MIN m
    | none => b1
  update ops { c with yaw := b2 }

/-- orbit_camera.rs OrbitCamera::add_yaw. -/
def add_yaw (ops : FloatOps) (delta : ℚ) (c : OrbitCamera) : OrbitCamera :=
  set_yaw ops (c.yaw + delta) c

/-- orbit_camera.rs OrbitCamera::pan: shift eye.y and target.y by
delta.1 times distance, then shift eye and target against the
normalized cross of the normalized forward vector with up, scaled by
delta.0 times distance.  Eye and target receive the same displacement
and update is not called. -/
def pan (ops : FloatOps) (delta : ℚ × ℚ) (c : OrbitCamera) : OrbitCamera :=
  let eye1 : Vec3 := { c.eye with y := c.eye.y + delta.2 * c.distance }
  let target1 : Vec3 := { c.target with y := c.target.y + delta.2 * c.distance }
  let forward := Vec3.normalize ops (target1 - eye1)
  let cr := Vec3.normalize ops (Vec3.cross forward c.up)
  { c with
    eye := eye1 - Vec3.smul c.distance (Vec3.smul delta.1 cr)
    target := target1 - Vec3.smul c.distance (Vec3.smul delta.1 cr) }

/-- orbit_camera.rs OrbitCamera::resize_projection over the idealised
rational scalars (rational division by zero yields zero; the IEEE
behaviour at height zero is modelled by resize_projection_f32_aspect
below). -/
def resize_projection (width height : ℕ) (c : OrbitCamera) : OrbitCamera :=
  { c with aspect := (width : ℚ) / (height : ℚ) }

/-- orbit_camera.rs OrbitCamera::build_view_projection_matrix (the
Camera trait implementation). -/
def build_view_projection_matrix (ops : FloatOps) (c : OrbitCamera) : Mat4 :=
  let view := look_at_rh ops c.eye c.target c.up
  let proj := OPENGL_TO_WGPU_MATRIX * perspective ops c.fovy c.aspect c.znear c.zfar
  proj * view

/-- orbit_camera.rs OrbitCamera::update_view_proj: the only writer of
the uniform field. -/
def update_view_proj (ops : FloatOps) (c : OrbitCamera) : OrbitCamera :=
  { c with
    uniform :=
      { view_position := ⟨c.eye.x, c.eye.y, c.eye.z, 1⟩
        view_proj := convert_matrix4_to_array (build_view_projection_matrix ops c) } }

/-- The public operations of OrbitCamera, for stating reachability
properties over arbitrary call sequences. -/
inductive Op where
  | setDistance (v : ℚ)
  | addDistance (v : ℚ)
  | setPitch (v : ℚ)
  | addPitch (v : ℚ)
  | setYaw (v : ℚ)
  | addYaw (v : ℚ)
  | pan (d : ℚ × ℚ)
  | resizeProjection (width height : ℕ)
  | updateViewProj
deriving DecidableEq

/-- Dispatch one operation to the corresponding source function. -/
def applyOp (ops : FloatOps) : Op → OrbitCamera → OrbitCamera
  | .setDistance v, c => set_distance ops v c
  | .addDistance v, c => add_distance ops v c
  | .setPitch v, c => set_pitch ops v c
  | .addPitch v, c => add_pitch ops v c
  | .setYaw v, c => set_yaw ops v c
  | .addYaw v, c => add_yaw ops v c
  | .pan d, c => pan ops d c
  | .resizeProjection w h, c => resize_projection w h c
  | .updateViewProj, c => update_view_proj ops c

/-- A sequence of operations applied left to right. -/
def applyOps (ops : FloatOps) (l : List Op) (c : OrbitCamera) : OrbitCamera :=
  l.foldl (fun s o => applyOp ops o s) c

/-- The invariant of claim C2: the cached eye always equals the value of
calculate_cartesian_eye_position on the current spherical parameters
and target. -/
def eyeInvariant (ops : FloatOps) (c : OrbitCamera) : Prop :=
  c.eye = calculate_cartesian_eye_position ops c.pitch c.yaw c.distance c.target

/-- The lower distance bound consulted by set_distance:
min_distance when set, otherwise f32::EPSILON. -/
def minDistBound (c : OrbitCamera) : ℚ :=
  c.bounds.min_distance.getD f32EPSILON

/-- The upper distance bound consulted by set_distance:
max_distance when set, otherwise f32::MAX. -/
def maxDistBound (c : OrbitCamera) : ℚ :=
  c.bounds.max_distance.getD f32MAX

/-- Distance part of the bounds invariant of claim C3. -/
def distInBounds (c : OrbitCamera) : Prop :=
  minDistBound c ≤ c.distance ∧ c.distance ≤ maxDistBound c

/-- Pitch part of the bounds invariant of claim C3. -/
def pitchInBounds (c : OrbitCamera) : Prop :=
  c.bounds.min_pitch ≤ c.pitch ∧ c.pitch ≤ c.bounds.max_pitch

/-- Well-formed bounds: each clamp receives a lower bound at most its
upper bound.  Rust f32::clamp panics when this fails, so it is the
precondition for the mutators to return at all. -/
def wfBounds (c : OrbitCamera) : Prop :=
  minDistBound c ≤ maxDistBound c ∧ c.bounds.min_pitch ≤ c.bounds.max_pitch

/-- Modelled from the claim wording of C7, for comparison with the
source function set_distance: the stored value is
clamp(value, min_distance if set else epsilon, max_distance if set else
plus infinity), that is, no upper clamp at all when max_distance is
unset.  The source instead clamps against f32::MAX in that case. -/
def set_distance_specClaim (ops : FloatOps) (distance : ℚ) (c : OrbitCamera) :
    OrbitCamera :=
  update ops
    { c with
      distance :=
        match c.bounds.max_distance with
        | some m => rustClamp distance (c.bounds.min_distance.getD f32EPSILON) m
        | none =>
            if distance < c.bounds.min_distance.getD f32EPSILON then
              c.bounds.min_distance.getD f32EPSILON
            else distance }

/-- camera_controller.rs CameraController. -/
structure CameraController where
  rotate_speed : ℚ
  zoom_speed : ℚ
  is_drag_rotate : Bool
  is_pan : Bool
deriving DecidableEq

/-- camera_controller.rs CameraController::new. -/
def CameraController.new (rotate_speed zoom_speed : ℚ) : CameraController :=
  { rotate_speed := rotate_speed
    zoom_speed := zoom_speed
    is_drag_rotate := false
    is_pan := false }

/-- The calls a controller step makes on the camera or the window, in
order.  Recording the calls instead of applying them keeps visible
which mutators a pointer-motion event triggers. -/
inductive CamCall where
  | addYaw (v : ℚ)
  | addPitch (v : ℚ)
  | pan (dx dy : ℚ)
  | addDistance (v : ℚ)
  | requestRedraw
deriving DecidableEq

/-- The inputs the two controller entry points dispatch on: the events
matched by process_events (device events) and by process_keyed_events
(keyboard events).  The wildcard arms of the source matches are the
buttonOther and otherKey constructors. -/
inductive ControllerInput where
  | button0 (pressed : Bool)
  | buttonOther
  | mouseWheel (scroll : ℚ)
  | mouseMotion (dx dy : ℚ)
  | shiftLeft (pressed : Bool)
  | otherKey
deriving DecidableEq

/-- camera_controller.rs process_events and process_keyed_events merged
over ControllerInput: returns the updated controller and the list of
camera and window calls the source performs for that event.  For
MouseWheel the scroll amount is negated before scaling, as in the
source. -/
def processInput (c : CameraController) :
    ControllerInput → CameraController × List CamCall
  | .button0 pressed =>
      if c.is_pan then ({ c with is_pan := pressed }, [])
      else ({ c with is_drag_rotate := pressed }, [])
  | .buttonOther => (c, [])
  | .mouseWheel scroll =>
      (c, [CamCall.addDistance (-scroll * c.zoom_speed), CamCall.requestRedraw])
  | .mouseMotion dx dy =>
      if c.is_drag_rotate then
        (c, [CamCall.addYaw (-dx * c.rotate_speed),
             CamCall.addPitch (dy * c.rotate_speed),
             CamCall.requestRedraw])
      else if c.is_pan then
        (c, [CamCall.pan (dx * c.rotate_speed / 2) (dy * c.rotate_speed / 2),
             CamCall.requestRedraw])
      else (c, [])
  | .shiftLeft pressed => ({ c with is_pan := pressed }, [])
  | .otherKey => (c, [])

/-- A sequence of controller inputs applied left to right, keeping only
the controller state. -/
def runInputs (c : CameraController) (l : List ControllerInput) : CameraController :=
  l.foldl (fun s e => (processInput s e).1) c

/-- Extended f32 value: a finite rational, an infinity, or NaN.  Signed
zero is not modelled; the u32-to-f32 casts in resize_projection produce
positive zero, which the positive branch of div below assumes. -/
inductive F32 where
  | finite (val : ℚ)
  | posInf
  | negInf
  | nan
deriving DecidableEq

/-- IEEE-754 division on extended f32 values, without signed zero:
a finite nonzero value divided by zero gives the correspondingly signed
infinity, zero divided by zero gives NaN, and every case involving NaN,
or infinity divided by infinity, gives NaN. -/
def F32.div : F32 → F32 → F32
  | .finite a, .finite b =>
      if b = 0 then (if a = 0 then .nan else if 0 < a then .posInf else .negInf)
      else .finite (a / b)
  | .finite _, .posInf => .finite 0
  | .finite _, .negInf => .finite 0
  | .posInf, .finite b => if 0 ≤ b then .posInf else .negInf
  | .negInf, .finite b => if 0 ≤ b then .negInf else .posInf
  | _, _ => .nan

/-- The cast width as f32 of resize_projection: exact for values below
2 to the 24; for larger u32 values the cast rounds but stays finite and
keeps the sign, which is what the verified facts use. -/
def u32_as_f32 (n : ℕ) : F32 := .finite (n : ℚ)

/-- The aspect value computed by orbit_camera.rs resize_projection,
line 185, under IEEE f32 division semantics: width as f32 divided by
height as f32, with no guard on a zero height. -/
def resize_projection_f32_aspect (width height : ℕ) : F32 :=
  F32.div (u32_as_f32 width) (u32_as_f32 height)

/-- Concrete FloatOps instance for witnesses: every transcendental
function returns zero. -/
def ops0 : FloatOps :=
  { sin := fun _ => 0
    cos := fun _ => 0
    tan := fun _ => 0
    sqrt := fun _ => 0
    log10 := fun _ => 0 }

/-- Concrete FloatOps instance for the C4 witness: log10 returns the
rational 0.602 at 4 (a value of the right magnitude for the real
log10 of 4) and zero elsewhere. -/
def ops4 : FloatOps :=
  { ops0 with log10 := fun x => if x = 4 then 301/500 else 0 }

/-- Witness camera: freshly constructed at distance 4. -/
def camBase : OrbitCamera := OrbitCamera.new ops0 4 0 0 ⟨0, 0, 0⟩ 1

/-- Witness camera for C4: freshly constructed at distance 4 using the
ops4 record. -/
def camD4 : OrbitCamera := OrbitCamera.new ops4 4 0 0 ⟨0, 0, 0⟩ 1

/-- Witness camera for C9: freshly constructed at distance 1. -/
def camD1 : OrbitCamera := OrbitCamera.new ops0 1 0 0 ⟨0, 0, 0⟩ 1

/-- Witness camera for C5: eye on the positive z axis, target at the
origin, up the world y axis, so eye and target differ and the forward
vector is not parallel to up. -/
def cam5 : OrbitCamera :=
  { distance := 4
    pitch := 0
    yaw := 0
    eye := ⟨0, 0, 4⟩
    target := ⟨0, 0, 0⟩
    up := ⟨0, 1, 0⟩
    bounds := OrbitCameraBounds.default
    aspect := 1
    fovy := PI32 / 4
    znear := 1 / 10
    zfar := 1000
    uniform := CameraUniform.default }

/-- Camera whose bounds leave max_distance unset, for the C7
counterexample. -/
def camNoMax : OrbitCamera :=
  { cam5 with
    bounds := { OrbitCameraBounds.default with max_distance := none } }

/-- Camera with the distance bounds named by claim C7: minimum 1.1 and
maximum 16, with the decimal literal 1.1 idealised as the exact
rational 11/10. -/
def cam117 : OrbitCamera :=
  { cam5 with
    bounds :=
      { OrbitCameraBounds.default with
        min_distance := some (11/10)
        max_distance := some 16 } }

/-- The controller state reached by pressing the primary button first
and the shift key second: both mode flags end up set. -/
def cexController : CameraController :=
  runInputs (CameraController.new 1 1)
    [ControllerInput.button0 true, ControllerInput.shiftLeft true]

instance (c : OrbitCamera) : Decidable (distInBounds c) :=
  inferInstanceAs (Decidable (_ ≤ _ ∧ _ ≤ _))

instance (c : OrbitCamera) : Decidable (pitchInBounds c) :=
  inferInstanceAs (Decidable (_ ≤ _ ∧ _ ≤ _))

instance (c : OrbitCamera) : Decidable (wfBounds c) :=
  inferInstanceAs (Decidable (_ ≤ _ ∧ _ ≤ _))

/-! Component lemmas for the vector algebra. -/

@[simp] theorem Vec3.add_x (a b : Vec3) : (a + b).x = a.x + b.x := rfl

@[simp] theorem Vec3.add_y (a b : Vec3) : (a + b).y = a.y + b.y := rfl

@[simp] theorem Vec3.add_z (a b : Vec3) : (a + b).z = a.z + b.z := rfl

@[simp] theorem Vec3.sub_x (a b : Vec3) : (a - b).x = a.x - b.x := rfl

@[simp] theorem Vec3.sub_y (a b : Vec3) : (a - b).y = a.y - b.y := rfl

@[simp] theorem Vec3.sub_z (a b : Vec3) : (a - b).z = a.z - b.z := rfl

@[simp] theorem Vec3.smul_x (k : ℚ) (a : Vec3) : (smul k a).x = k * a.x := rfl

@[simp] theorem Vec3.smul_y (k : ℚ) (a : Vec3) : (smul k a).y = k * a.y := rfl

@[simp] theorem Vec3.smul_z (k : ℚ) (a : Vec3) : (smul k a).z = k * a.z := rfl

@[simp] theorem Vec4.add_x4 (a b : Vec4) : (a + b).x = a.x + b.x := rfl

@[simp] theorem Vec4.add_y4 (a b : Vec4) : (a + b).y = a.y + b.y := rfl

@[simp] theorem Vec4.add_z4 (a b : Vec4) : (a + b).z = a.z + b.z := rfl

@[simp] theorem Vec4.add_w4 (a b : Vec4) : (a + b).w = a.w + b.w := rfl

@[simp] theorem Vec4.smul_x4 (k : ℚ) (a : Vec4) : (smul k a).x = k * a.x := rfl

@[simp] theorem Vec4.smul_y4 (k : ℚ) (a : Vec4) : (smul k a).y = k * a.y := rfl

@[simp] theorem Vec4.smul_z4 (k : ℚ) (a : Vec4) : (smul k a).z = k * a.z := rfl

@[simp] theorem Vec4.smul_w4 (k : ℚ) (a : Vec4) : (smul k a).w = k * a.w := rfl

/-! Behaviour of the Rust clamp primitive on well-formed bounds. -/

theorem rustClamp_lower (x lo hi : ℚ) (h : lo ≤ hi) : lo ≤ rustClamp x lo hi := by
  unfold rustClamp
  split_ifs <;> linarith

theorem rustClamp_upper (x lo hi : ℚ) (h : lo ≤ hi) : rustClamp x lo hi ≤ hi := by
  unfold rustClamp
  split_ifs <;> linarith

theorem rustClamp_id (x lo hi : ℚ) (h1 : lo ≤ x) (h2 : x ≤ hi) :
    rustClamp x lo hi = x := by
  unfold rustClamp
  split_ifs <;> linarith

/-! The pan operation adds one displacement to both eye and target. -/

theorem pan_eye_shift_eq_target_shift (ops : FloatOps) (d : ℚ × ℚ) (c : OrbitCamera) :
    (pan ops d c).eye - c.eye = (pan ops d c).target - c.target := by
  simp only [pan]
  ext
  all_goals simp
  all_goals ring

theorem pan_offset_unchanged (ops : FloatOps) (d : ℚ × ℚ) (c : OrbitCamera) :
    (pan ops d c).eye - (pan ops d c).target = c.eye - c.target := by
  simp only [pan]
  ext <;> simp

/-! Preservation of the eye invariant by each operation. -/

theorem eyeInvariant_update (ops : FloatOps) (c : OrbitCamera) :
    eyeInvariant ops (update ops c) := rfl

theorem eyeInvariant_pan (ops : FloatOps) (d : ℚ × ℚ) (c : OrbitCamera)
    (h : eyeInvariant ops c) : eyeInvariant ops (pan ops d c) := by
  unfold eyeInvariant calculate_cartesian_eye_position at h ⊢
  have hx := congrArg Vec3.x h
  have hy := congrArg Vec3.y h
  have hz := congrArg Vec3.z h
  simp only [Vec3.add_x, Vec3.add_y, Vec3.add_z] at hx hy hz
  simp only [pan]
  ext <;> simp <;> linarith

theorem eyeInvariant_applyOp (ops : FloatOps) (op : Op) (c : OrbitCamera)
    (h : eyeInvariant ops c) : eyeInvariant ops (applyOp ops op c) := by
  cases op with
  | setDistance v => exact eyeInvariant_update ops _
  | addDistance v => exact eyeInvariant_update ops _
  | setPitch v => exact eyeInvariant_update ops _
  | addPitch v => exact eyeInvariant_update ops _
  | setYaw v => exact eyeInvariant_update ops _
  | addYaw v => exact eyeInvariant_update ops _
  | pan d => exact eyeInvariant_pan ops d c h
  | resizeProjection w hh => exact h
  | updateViewProj => exact h

theorem eyeInvariant_applyOps (ops : FloatOps) (l : List Op) (c : OrbitCamera)
    (h : eyeInvariant ops c) : eyeInvariant ops (applyOps ops l c) := by
  induction l generalizing c with
  | nil => exact h
  | cons o t ih => exact ih _ (eyeInvariant_applyOp ops o c h)

/-! Preservation of the distance and pitch bounds. -/

theorem distInBounds_set_distance (ops : FloatOps) (v : ℚ) (c : OrbitCamera)
    (wf : wfBounds c) : distInBounds (set_distance ops v c) :=
  ⟨rustClamp_lower v _ _ wf.1, rustClamp_upper v _ _ wf.1⟩

theorem pitchInBounds_set_pitch (ops : FloatOps) (v : ℚ) (c : OrbitCamera)
    (wf : wfBounds c) : pitchInBounds (set_pitch ops v c) :=
  ⟨rustClamp_lower v _ _ wf.2, rustClamp_upper v _ _ wf.2⟩

theorem wfBounds_applyOp (ops : FloatOps) (op : Op) (c : OrbitCamera)
    (wf : wfBounds c) : wfBounds (applyOp ops op c) := by
  cases op <;> exact wf

theorem inBounds_applyOp (ops : FloatOps) (op : Op) (c : OrbitCamera)
    (wf : wfBounds c) (hd : distInBounds c) (hp : pitchInBounds c) :
    distInBounds (applyOp ops op c) ∧ pitchInBounds (applyOp ops op c) := by
  cases op with
  | setDistance v => exact ⟨distInBounds_set_distance ops v c wf, hp⟩
  | addDistance v => exact ⟨distInBounds_set_distance ops _ c wf, hp⟩
  | setPitch v => exact ⟨hd, pitchInBounds_set_pitch ops v c wf⟩
  | addPitch v => exact ⟨hd, pitchInBounds_set_pitch ops _ c wf⟩
  | setYaw v => exact ⟨hd, hp⟩
  | addYaw v => exact ⟨hd, hp⟩
  | pan d => exact ⟨hd, hp⟩
  | resizeProjection w h => exact ⟨hd, hp⟩
  | updateViewProj => exact ⟨hd, hp⟩

theorem inBounds_applyOps (ops : FloatOps) (l : List Op) (c : OrbitCamera)
    (wf : wfBounds c) (hd : distInBounds c) (hp : pitchInBounds c) :
    distInBounds (applyOps ops l c) ∧ pitchInBounds (applyOps ops l c) := by
  induction l generalizing c with
  | nil => exact ⟨hd, hp⟩
  | cons o t ih =>
      obtain ⟨hd2, hp2⟩ := inBounds_applyOp ops o c wf hd hp
      exact ih _ (wfBounds_applyOp ops o c wf) hd2 hp2

/-! Numeric evaluations of the embedded f32 constants, used to
discharge side conditions at concrete inputs. -/

theorem eval_eps_le_sixteen : f32EPSILON ≤ (16 : ℚ) := by
  norm_num [f32EPSILON]

theorem eval_eps_le_four : f32EPSILON ≤ (4 : ℚ) := by
  norm_num [f32EPSILON]

theorem eval_eps_le_one : f32EPSILON ≤ (1 : ℚ) := by
  norm_num [f32EPSILON]

theorem eval_pitch_default_wf :
    -(PI32 / 2) + f32EPSILON ≤ PI32 / 2 - f32EPSILON := by
  norm_num [PI32, f32EPSILON]

theorem eval_min_pitch_le_zero : -(PI32 / 2) + f32EPSILON ≤ (0 : ℚ) := by
  norm_num [PI32, f32EPSILON]

theorem eval_zero_le_max_pitch : (0 : ℚ) ≤ PI32 / 2 - f32EPSILON := by
  norm_num [PI32, f32EPSILON]

/-- A freshly constructed camera carries the default bounds, which are
well formed. -/
theorem wfBounds_new (ops : FloatOps) (d p y : ℚ) (t : Vec3) (a : ℚ) :
    wfBounds (OrbitCamera.new ops d p y t a) := by
  constructor
  · show f32EPSILON ≤ (16 : ℚ)
    exact eval_eps_le_sixteen
  · show -(PI32 / 2) + f32EPSILON ≤ PI32 / 2 - f32EPSILON
    exact eval_pitch_default_wf

/-! The claims. -/

/-- C1: the claim describes the correction matrix as the identity
except entries (row 2, column 2) and (row 2, column 3) both one half,
and that is also what the name OPENGL_TO_WGPU_MATRIX denotes (the
standard remap of clip depth from the interval -1..1 to 0..1).  The
constant in the source, read with the column-major argument order of
cgmath Matrix4::new, is instead the transpose of that matrix: its entry
(2,3) is 0 and its entry (3,2) is one half.  Consequently it rescales
the clip w coordinate instead of remapping depth: it sends the
clip-space point (0,0,-1,1), which the claimed matrix sends to
normalized depth 0, to normalized depth -1. -/
theorem C1_correction_constant_is_transposed :
    OPENGL_TO_WGPU_MATRIX.entry 2 2 = 1/2
    ∧ OPENGL_TO_WGPU_MATRIX.entry 2 3 = 0
    ∧ OPENGL_TO_WGPU_MATRIX.entry 3 2 = 1/2
    ∧ SPEC_CORRECTION_MATRIX.entry 2 2 = 1/2
    ∧ SPEC_CORRECTION_MATRIX.entry 2 3 = 1/2
    ∧ SPEC_CORRECTION_MATRIX.entry 3 2 = 0
    ∧ OPENGL_TO_WGPU_MATRIX ≠ SPEC_CORRECTION_MATRIX
    ∧ OPENGL_TO_WGPU_MATRIX.transpose = SPEC_CORRECTION_MATRIX
    ∧ OPENGL_TO_WGPU_MATRIX.mulVec ⟨0, 0, -1, 1⟩ = ⟨0, 0, -(1/2), 1/2⟩
    ∧ SPEC_CORRECTION_MATRIX.mulVec ⟨0, 0, -1, 1⟩ = ⟨0, 0, 0, 1⟩ := by
  refine ⟨rfl, rfl, rfl, rfl, rfl, rfl, ?_, rfl, ?_, ?_⟩
  · intro h
    have h2 := congrArg (fun m => (Mat4.z m).w) h
    norm_num [OPENGL_TO_WGPU_MATRIX, SPEC_CORRECTION_MATRIX, Mat4.new] at h2
  · apply Vec4.ext <;>
      norm_num [OPENGL_TO_WGPU_MATRIX, Mat4.new, Mat4.mulVec]
  · apply Vec4.ext <;>
      norm_num [SPEC_CORRECTION_MATRIX, Mat4.new, Mat4.mulVec]

/-- C2: after construction with arbitrary arguments and after any
sequence of the public operations, the eye field equals target plus
distance times (sin yaw times cos pitch, sin pitch, cos yaw times cos
pitch); in particular the invariant survives pan, which shifts eye and
target directly without recomputing eye. -/
theorem C2_eye_always_derived_from_spherical :
    ∀ (ops : FloatOps) (d p y : ℚ) (t : Vec3) (a : ℚ) (l : List Op),
      eyeInvariant ops (applyOps ops l (OrbitCamera.new ops d p y t a)) :=
  fun ops _ _ _ _ _ l =>
    eyeInvariant_applyOps ops l _ (eyeInvariant_update ops _)

/-- C3 counterexample: construction does not clamp.  A camera built
with initial distance 100 keeps distance 100 although its (default)
bounds cap distance at 16, so the state reached by construction alone
already violates the claimed invariant. -/
theorem C3_counterexample_construction_does_not_clamp :
    (OrbitCamera.new ops0 100 0 0 ⟨0, 0, 0⟩ 1).distance = 100
    ∧ (OrbitCamera.new ops0 100 0 0 ⟨0, 0, 0⟩ 1).bounds.max_distance = some 16
    ∧ ¬ distInBounds (OrbitCamera.new ops0 100 0 0 ⟨0, 0, 0⟩ 1) := by
  refine ⟨rfl, rfl, fun h => ?_⟩
  have h2 : (100 : ℚ) ≤ 16 := h.2
  exact absurd h2 (by decide)

/-- C3 amended: the mutators, not the constructor, establish the
bounds.  Whenever the bounds are well formed (each lower bound at most
the matching upper bound; Rust clamp panics otherwise), set_distance
and add_distance leave distance in the interval from min_distance (or
f32::EPSILON) to max_distance (or f32::MAX), set_pitch and add_pitch
leave pitch between min_pitch and max_pitch, and every operation
preserves both bounds once they hold.  Construction stores distance and
pitch unclamped, so states reached from a constructed camera satisfy
the bounds provided the initial distance and pitch already did. -/
theorem C3_amended_bounds_established_by_mutators :
    (∀ (ops : FloatOps) (v : ℚ) (c : OrbitCamera), wfBounds c →
        distInBounds (set_distance ops v c))
    ∧ (∀ (ops : FloatOps) (v : ℚ) (c : OrbitCamera), wfBounds c →
        distInBounds (add_distance ops v c))
    ∧ (∀ (ops : FloatOps) (v : ℚ) (c : OrbitCamera), wfBounds c →
        pitchInBounds (set_pitch ops v c))
    ∧ (∀ (ops : FloatOps) (v : ℚ) (c : OrbitCamera), wfBounds c →
        pitchInBounds (add_pitch ops v c))
    ∧ (∀ (ops : FloatOps) (op : Op) (c : OrbitCamera),
        wfBounds c → distInBounds c → pitchInBounds c →
        distInBounds (applyOp ops op c) ∧ pitchInBounds (applyOp ops op c))
    ∧ (∀ (ops : FloatOps) (d p y : ℚ) (t : Vec3) (a : ℚ) (l : List Op),
        f32EPSILON ≤ d → d ≤ 16 →
        -(PI32 / 2) + f32EPSILON ≤ p → p ≤ PI32 / 2 - f32EPSILON →
        distInBounds (applyOps ops l (OrbitCamera.new ops d p y t a))
        ∧ pitchInBounds (applyOps ops l (OrbitCamera.new ops d p y t a))) := by
  refine ⟨distInBounds_set_distance, ?_, pitchInBounds_set_pitch, ?_, inBounds_applyOp, ?_⟩
  · exact fun ops v c wf => distInBounds_set_distance ops _ c wf
  · exact fun ops v c wf => pitchInBounds_set_pitch ops _ c wf
  · intro ops d p y t a l h1 h2 h3 h4
    exact inBounds_applyOps ops l _ (wfBounds_new ops d p y t a) ⟨h1, h2⟩ ⟨h3, h4⟩

/-- C3 witness: from a camera constructed at distance 4 and pitch 0
(both within the default bounds), the sequence of a distance write, a
pan and a pitch nudge stays within bounds. -/
theorem C3_amended_witness :
    distInBounds (applyOps ops0 [Op.setDistance 100, Op.pan (1, 2), Op.addPitch 1] camBase)
    ∧ pitchInBounds (applyOps ops0 [Op.setDistance 100, Op.pan (1, 2), Op.addPitch 1] camBase) :=
  C3_amended_bounds_established_by_mutators.2.2.2.2.2 ops0 4 0 0 ⟨0, 0, 0⟩ 1
    [Op.setDistance 100, Op.pan (1, 2), Op.addPitch 1]
    eval_eps_le_four (by decide) eval_min_pitch_le_zero eval_zero_le_max_pitch

/-- C4: add_distance of delta is exactly set_distance of the current
distance plus log10 of the current distance times delta; with the
default bounds and current distance 4, add_distance of 1 stores
4 + log10(4), provided that value lies between f32::EPSILON and 16
(true of the real log10, for which it is about 4.602). -/
theorem C4_add_distance_is_logarithmic_set_distance :
    (∀ (ops : FloatOps) (delta : ℚ) (c : OrbitCamera),
        add_distance ops delta c
          = set_distance ops (c.distance + ops.log10 c.distance * delta) c)
    ∧ (∀ (ops : FloatOps) (c : OrbitCamera),
        c.bounds = OrbitCameraBounds.default → c.distance = 4 →
        f32EPSILON ≤ 4 + ops.log10 4 * 1 → 4 + ops.log10 4 * 1 ≤ 16 →
        (add_distance ops 1 c).distance = 4 + ops.log10 4 * 1) := by
  refine ⟨fun ops delta c => rfl, fun ops c hb hd h1 h2 => ?_⟩
  have hev : (add_distance ops 1 c).distance
      = rustClamp (c.distance + ops.log10 c.distance * 1)
          (c.bounds.min_distance.getD f32EPSILON)
          (c.bounds.max_distance.getD f32MAX) := rfl
  rw [hev, hb, hd]
  show rustClamp (4 + ops.log10 4 * 1) f32EPSILON 16 = 4 + ops.log10 4 * 1
  exact rustClamp_id _ _ _ h1 h2

/-- C4 witness: with a log10 implementation returning 0.602 at 4, the
freshly constructed camera at distance 4 moves to 4.602. -/
theorem eval_c4_lower : f32EPSILON ≤ 4 + ops4.log10 4 * 1 := by
  norm_num [f32EPSILON, ops4, ops0]

theorem eval_c4_upper : 4 + ops4.log10 4 * 1 ≤ 16 := by
  norm_num [ops4, ops0]

theorem C4_witness :
    (add_distance ops4 1 camD4).distance = 4 + ops4.log10 4 * 1 :=
  C4_add_distance_is_logarithmic_set_distance.2 ops4 camD4 rfl rfl
    eval_c4_lower eval_c4_upper

/-- C5: for a camera whose pan axes are well defined (eye distinct from
target and the forward vector not parallel to up, that is, their cross
product nonzero), pan adds the same displacement to eye and target, so
their difference is unchanged. -/
theorem C5_pan_same_displacement :
    ∀ (ops : FloatOps) (c : OrbitCamera) (d : ℚ × ℚ),
      c.eye ≠ c.target →
      Vec3.cross (c.target - c.eye) c.up ≠ (⟨0, 0, 0⟩ : Vec3) →
      (pan ops d c).eye - c.eye = (pan ops d c).target - c.target
      ∧ (pan ops d c).eye - (pan ops d c).target = c.eye - c.target :=
  fun ops c d _ _ =>
    ⟨pan_eye_shift_eq_target_shift ops d c, pan_offset_unchanged ops d c⟩

/-- C5 witness: a camera with eye on the z axis looking at the origin
with y up. -/
theorem eval_cam5_axes :
    Vec3.cross (cam5.target - cam5.eye) cam5.up ≠ (⟨0, 0, 0⟩ : Vec3) := by
  intro h
  have h2 := congrArg Vec3.x h
  simp [cam5, Vec3.cross] at h2

theorem C5_witness :
    (pan ops0 (1, 2) cam5).eye - cam5.eye = (pan ops0 (1, 2) cam5).target - cam5.target
    ∧ (pan ops0 (1, 2) cam5).eye - (pan ops0 (1, 2) cam5).target = cam5.eye - cam5.target :=
  C5_pan_same_displacement ops0 cam5 (1, 2) (by decide) eval_cam5_axes

/-- C6 counterexample: pressing the primary button first (setting the
drag-rotate flag) and the shift key second (setting the pan flag)
reaches a controller state with both flags set; there a pointer-motion
event emits add_yaw and add_pitch calls, because the motion handler
checks the drag-rotate flag first.  So a reachable Panning state does
produce rotation calls, contradicting the claimed precedence. -/
theorem C6_counterexample_motion_rotates_while_pan_flag_set :
    cexController.is_pan = true
    ∧ cexController.is_drag_rotate = true
    ∧ (processInput cexController (ControllerInput.mouseMotion 1 1)).2
        = [CamCall.addYaw (-1 * 1), CamCall.addPitch (1 * 1), CamCall.requestRedraw]
    ∧ CamCall.addYaw (-1 * 1)
        ∈ (processInput cexController (ControllerInput.mouseMotion 1 1)).2
    ∧ (-1 * 1 : ℚ) = -1 := by
  refine ⟨rfl, rfl, rfl, ?_, by norm_num⟩
  exact List.mem_cons_self _ _

/-- C6 amended: a pointer-motion event emits no add_yaw or add_pitch
call in states where the pan flag is set and the drag-rotate flag is
clear (it emits exactly a pan and a redraw); when both flags are set,
which is reachable by pressing the button before the modifier, the
motion handler gives drag-rotation precedence.  The pan-before-drag
check of the source applies only to button presses: a button press
never changes the drag-rotate flag while the pan flag is set. -/
theorem C6_amended_pan_without_drag_never_rotates :
    (∀ (c : CameraController) (dx dy : ℚ),
        c.is_pan = true → c.is_drag_rotate = false →
        (processInput c (ControllerInput.mouseMotion dx dy)).2
          = [CamCall.pan (dx * c.rotate_speed / 2) (dy * c.rotate_speed / 2),
             CamCall.requestRedraw]
        ∧ ∀ v, CamCall.addYaw v ∉ (processInput c (ControllerInput.mouseMotion dx dy)).2
             ∧ CamCall.addPitch v ∉ (processInput c (ControllerInput.mouseMotion dx dy)).2)
    ∧ (∀ (c : CameraController) (p : Bool),
        c.is_pan = true →
        (processInput c (ControllerInput.button0 p)).1.is_drag_rotate
          = c.is_drag_rotate) := by
  constructor
  · intro c dx dy hpan hdrag
    simp [processInput, hpan, hdrag]
  · intro c p hpan
    simp [processInput, hpan]

/-- C6 witness: a controller in the pure pan state pans on motion. -/
theorem C6_amended_witness :
    (processInput ⟨1, 1, false, true⟩ (ControllerInput.mouseMotion 2 3)).2
      = [CamCall.pan (2 * 1 / 2) (3 * 1 / 2), CamCall.requestRedraw] :=
  (C6_amended_pan_without_drag_never_rotates.1 ⟨1, 1, false, true⟩ 2 3 rfl rfl).1

/-- C7 counterexample: with max_distance unset the source clamps
against f32::MAX, not against plus infinity: set_distance of twice
f32::MAX stores f32::MAX, while the clamp described by the claim (no
upper bound when max_distance is unset) would store the value itself. -/
theorem C7_counterexample_unset_max_clamps_to_f32_max :
    (set_distance ops0 (2 * f32MAX) camNoMax).distance = f32MAX
    ∧ (set_distance_specClaim ops0 (2 * f32MAX) camNoMax).distance = 2 * f32MAX
    ∧ (2 * f32MAX : ℚ) ≠ f32MAX := by
  have hlo : ¬ (2 * f32MAX < f32EPSILON) := by norm_num [f32MAX, f32EPSILON]
  have hhi : 2 * f32MAX > f32MAX := by norm_num [f32MAX]
  refine ⟨?_, ?_, by norm_num [f32MAX]⟩
  · show rustClamp (2 * f32MAX) f32EPSILON f32MAX = f32MAX
    unfold rustClamp
    rw [if_neg hlo, if_pos hhi]
  · show (if 2 * f32MAX < f32EPSILON then f32EPSILON else 2 * f32MAX) = 2 * f32MAX
    rw [if_neg hlo]

/-- C7 amended: for every input value, set_distance stores
clamp(value, min_distance if set else f32::EPSILON, max_distance if set
else f32::MAX), total, with no rejection or error path; with bounds
min 1.1 and max 16, input 0 stores 1.1 and input 100 stores 16. -/
theorem C7_amended_set_distance_clamps :
    (∀ (ops : FloatOps) (v : ℚ) (c : OrbitCamera),
        (set_distance ops v c).distance
          = rustClamp v (c.bounds.min_distance.getD f32EPSILON)
              (c.bounds.max_distance.getD f32MAX))
    ∧ (∀ (ops : FloatOps) (c : OrbitCamera),
        c.bounds.min_distance = some (11/10) → c.bounds.max_distance = some 16 →
        (set_distance ops 0 c).distance = 11/10
        ∧ (set_distance ops 100 c).distance = 16) := by
  refine ⟨fun ops v c => rfl, fun ops c h1 h2 => ?_⟩
  constructor
  · have hev : (set_distance ops 0 c).distance
        = rustClamp 0 (c.bounds.min_distance.getD f32EPSILON)
            (c.bounds.max_distance.getD f32MAX) := rfl
    rw [hev, h1, h2]
    show rustClamp 0 (11/10) 16 = 11/10
    unfold rustClamp
    norm_num
  · have hev : (set_distance ops 100 c).distance
        = rustClamp 100 (c.bounds.min_distance.getD f32EPSILON)
            (c.bounds.max_distance.getD f32MAX) := rfl
    rw [hev, h1, h2]
    show rustClamp 100 (11/10) 16 = 16
    unfold rustClamp
    norm_num

/-- C7 witness: the two concrete saturations named by the claim. -/
theorem C7_amended_witness :
    (set_distance ops0 0 cam117).distance = 11/10
    ∧ (set_distance ops0 100 cam117).distance = 16 :=
  C7_amended_set_distance_clamps.2 ops0 cam117 rfl rfl

/-- C8: update_view_proj is the only operation that writes the uniform
snapshot: every other operation leaves the uniform field unchanged, and
hence any sequence of operations containing no update_view_proj leaves
it exactly as it was. -/
theorem C8_uniform_written_only_by_update_view_proj :
    (∀ (ops : FloatOps) (op : Op) (c : OrbitCamera), op ≠ Op.updateViewProj →
        (applyOp ops op c).uniform = c.uniform)
    ∧ (∀ (ops : FloatOps) (l : List Op) (c : OrbitCamera),
        (∀ op ∈ l, op ≠ Op.updateViewProj) →
        (applyOps ops l c).uniform = c.uniform) := by
  have h1 : ∀ (ops : FloatOps) (op : Op) (c : OrbitCamera), op ≠ Op.updateViewProj →
      (applyOp ops op c).uniform = c.uniform := by
    intro ops op c hne
    cases op <;> first
    | exact absurd rfl hne
    | rfl
  refine ⟨h1, ?_⟩
  intro ops l
  induction l with
  | nil => exact fun c _ => rfl
  | cons o t ih =>
      intro c hl
      have rest : (applyOps ops t (applyOp ops o c)).uniform = (applyOp ops o c).uniform :=
        ih (applyOp ops o c) (fun op hop => hl op (List.mem_cons_of_mem o hop))
      exact rest.trans (h1 ops o c (hl o (List.mem_cons_self o t)))

/-- C8 witness: a distance write, a pan and a resize leave the uniform
of a freshly built camera untouched. -/
theorem C8_witness :
    (applyOps ops0 [Op.setDistance 100, Op.pan (1, 2), Op.resizeProjection 1920 1080] camBase).uniform
      = camBase.uniform :=
  C8_uniform_written_only_by_update_view_proj.2 ops0
    [Op.setDistance 100, Op.pan (1, 2), Op.resizeProjection 1920 1080] camBase
    (by decide)

/-- C9: distance 1 is a fixed point of add_distance: when log10 of 1 is
0 and the bounds allow 1, add_distance of any delta, and any sequence
of add_distance calls, leaves distance exactly 1. -/
theorem C9_distance_one_is_add_distance_fixed_point :
    ∀ (ops : FloatOps) (c : OrbitCamera),
      ops.log10 1 = 0 → c.distance = 1 →
      minDistBound c ≤ 1 → 1 ≤ maxDistBound c →
      (∀ delta, (add_distance ops delta c).distance = 1)
      ∧ ∀ (l : List ℚ),
          (l.foldl (fun s delta => add_distance ops delta s) c).distance = 1 := by
  intro ops c hlog hd hlo hhi
  have step : ∀ (c2 : OrbitCamera), c2.bounds = c.bounds → c2.distance = 1 →
      ∀ delta, (add_distance ops delta c2).distance = 1
        ∧ (add_distance ops delta c2).bounds = c.bounds := by
    intro c2 hb hd2 delta
    refine ⟨?_, hb⟩
    have hev : (add_distance ops delta c2).distance
        = rustClamp (c2.distance + ops.log10 c2.distance * delta)
            (c2.bounds.min_distance.getD f32EPSILON)
            (c2.bounds.max_distance.getD f32MAX) := rfl
    rw [hev, hd2, hlog, hb]
    norm_num
    exact rustClamp_id _ _ _ hlo hhi
  constructor
  · exact fun delta => (step c rfl hd delta).1
  · have hall : ∀ (l : List ℚ) (c2 : OrbitCamera),
        c2.bounds = c.bounds → c2.distance = 1 →
        (l.foldl (fun s delta => add_distance ops delta s) c2).distance = 1 := by
      intro l
      induction l with
      | nil => exact fun c2 _ h2 => h2
      | cons delta t ih =>
          intro c2 hb h2
          exact ih (add_distance ops delta c2) (step c2 hb h2 delta).2
            (step c2 hb h2 delta).1
    exact fun l => hall l c rfl hd

/-- C9 witness: a camera built at distance 1 with the default bounds
ignores scroll zoom forever. -/
theorem eval_camD1_lower : minDistBound camD1 ≤ 1 := by
  show f32EPSILON ≤ (1 : ℚ)
  exact eval_eps_le_one

theorem C9_witness :
    (add_distance ops0 5 camD1).distance = 1
    ∧ (([5, -3, 7] : List ℚ).foldl (fun s delta => add_distance ops0 delta s) camD1).distance = 1 := by
  obtain ⟨h1, h2⟩ := C9_distance_one_is_add_distance_fixed_point ops0 camD1
    rfl rfl eval_camD1_lower (by decide)
  exact ⟨h1 5, h2 [5, -3, 7]⟩

/-- C10: resize_projection performs an unguarded division: under IEEE
f32 semantics a positive width over height 0 yields aspect plus
infinity and width 0 over height 0 yields NaN; the operation is total,
touches only the aspect field, and applies no clamp or guard. -/
theorem C10_resize_division_unguarded :
    (∀ w : ℕ, 0 < w → resize_projection_f32_aspect w 0 = F32.posInf)
    ∧ resize_projection_f32_aspect 0 0 = F32.nan
    ∧ (∀ (c : OrbitCamera) (w h : ℕ),
        resize_projection w h c = { c with aspect := (w : ℚ) / (h : ℚ) }) := by
  refine ⟨?_, by decide, fun c w h => rfl⟩
  intro w hw
  have hne : ((w : ℚ)) ≠ 0 := by exact_mod_cast Nat.pos_iff_ne_zero.mp hw
  have hpos : (0 : ℚ) < (w : ℚ) := by exact_mod_cast hw
  simp [resize_projection_f32_aspect, u32_as_f32, F32.div, hne, hpos]

/-- C10 witness: a 1920 by 0 viewport produces an infinite aspect. -/
theorem C10_witness : resize_projection_f32_aspect 1920 0 = F32.posInf :=
  C10_resize_division_unguarded.1 1920 (by decide)

end RenderCam
